import Mathlib

/-!
Verification of the Alt-Scanner feature-detection, scoring and
outcome-labeling engine.

The definitions below are a shallow embedding of the Python sources:
  * `analyze_alerts.py` — outcome labeling (`label_one_alert`),
  * `src/scoring.py`    — weighted scoring (`score_signal`),
  * `src/scanner.py`    — structural flags, level building and signal logging.

Prices are modelled as exact rationals (`Rat`); Python dictionaries whose key
sets matter are modelled as association lists; external effects (the ISO
timestamp parse and the network kline fetch) are passed in as explicit
parameters so that the pure core is total and executable.
-/

namespace AltScanner

/-! ### Outcome labeling engine — `analyze_alerts.py` -/

/-- One forward candle as used by `label_one_alert` (only `high` and `low`
are read by the scan, cf. `analyze_alerts.py` lines 124-126). -/
structure Bar where
  high : Rat
  low : Rat
deriving Repr, DecidableEq

/-- The outcome fields that `label_one_alert` adds to the alert dict
(`analyze_alerts.py` lines 91-99).  `extra_tp_keys` records dict keys
`hit_tp{i}` for `i` outside 1..4 that line 161 would create afresh;
`kline_fetch_error` records whether the `error` key of line 117 was added. -/
structure LabelOut where
  hit_sl : Bool
  hit_tp1 : Bool
  hit_tp2 : Bool
  hit_tp3 : Bool
  hit_tp4 : Bool
  extra_tp_keys : List Nat
  first_event : String
  max_tp_reached : Nat
  rr_at_max_tp : Rat
  kline_fetch_error : Bool
deriving Repr, DecidableEq

/-- The "no evaluation possible" defaults of `analyze_alerts.py` lines 91-99. -/
def defaultOut : LabelOut :=
  { hit_sl := false, hit_tp1 := false, hit_tp2 := false, hit_tp3 := false,
    hit_tp4 := false, extra_tp_keys := [], first_event := "NONE",
    max_tp_reached := 0, rr_at_max_tp := 0, kline_fetch_error := false }

/-- The fields of a historical alert record that `label_one_alert` reads
(`analyze_alerts.py` lines 84-89).  `none` models a missing key / JSON null;
an empty string models a falsy string. -/
structure Alert where
  timestamp : Option String
  symbol : Option String
  side : Option String
  entry : Option Rat
  sl : Option Rat
  tps : List Rat
deriving Repr, DecidableEq

/-- The local `first_event` variable of the scan (`analyze_alerts.py`
lines 97, 121, 141, 146).  In the source it is the string `"NONE"`, `"SL"`
or `"TP" + str(i)`; the inductive form is in exact bijection with those
strings via `feString` (for `i ≥ 1` the slice `first_event[2:]` recovers
`str(i)`). -/
inductive FirstEvent where
  | noneEv : FirstEvent
  | slEv : FirstEvent
  | tpEv : Nat → FirstEvent
deriving Repr, DecidableEq

/-- The string stored in the `first_event` field. -/
def feString : FirstEvent → String
  | .noneEv => "NONE"
  | .slEv => "SL"
  | .tpEv i => "TP" ++ toString i

/-- Stop-loss touch test of `analyze_alerts.py` lines 128-134:
for `side == "BUY"` the stop is hit when `low <= sl`, otherwise (the
validated alternative is `"SELL"`) when `high >= sl`. -/
def slTouch (side : String) (sl : Rat) (b : Bar) : Bool :=
  if side = "BUY" then decide (b.low ≤ sl) else decide (b.high ≥ sl)

/-- Take-profit touch list of `analyze_alerts.py` lines 132 and 135:
`[high >= tp for tp in tp_levels]` for BUY, `[low <= tp ...]` otherwise. -/
def tpHits (side : String) (tps : List Rat) (b : Bar) : List Bool :=
  if side = "BUY" then tps.map (fun tp => decide (b.high ≥ tp))
  else tps.map (fun tp => decide (b.low ≤ tp))

/-- 1-based index of the first `true` entry, mirroring
`for i, hit in enumerate(tp_hits, start=1): if hit: ...; break`
(`analyze_alerts.py` lines 144-150). -/
def firstHitIdx : List Bool → Option Nat
  | [] => none
  | h :: t => if h then some 1 else (firstHitIdx t).map (· + 1)

/-- The candle loop of `analyze_alerts.py` lines 124-154, carrying the
mutable locals `first_event` and `max_tp_idx`.  On a stop-loss touch the
loop breaks at once (line 140-142); otherwise the first touched TP index of
the bar overwrites `first_event` and raises `max_tp_idx` to its maximum
(lines 144-150). -/
def scanBars (side : String) (sl : Rat) (tps : List Rat) :
    List Bar → FirstEvent → Nat → FirstEvent × Nat
  | [], fe, mx => (fe, mx)
  | b :: rest, fe, mx =>
    if slTouch side sl b then (.slEv, mx)
    else
      match firstHitIdx (tpHits side tps b) with
      | some i => scanBars side sl tps rest (.tpEv i) (max mx i)
      | none => scanBars side sl tps rest fe mx

/-- `out[f"hit_tp{i}"] = True` of `analyze_alerts.py` line 161: for
`i ∈ {1,2,3,4}` this sets an initialised field, for any other `i` it creates
a fresh dict key. -/
def setTpFlag (o : LabelOut) (i : Nat) : LabelOut :=
  if i = 1 then { o with hit_tp1 := true }
  else if i = 2 then { o with hit_tp2 := true }
  else if i = 3 then { o with hit_tp3 := true }
  else if i = 4 then { o with hit_tp4 := true }
  else { o with extra_tp_keys := o.extra_tp_keys ++ [i] }

/-- Post-scan bookkeeping of `analyze_alerts.py` lines 156-181, starting from
the default outcome fields (`out` carries all-false flags when line 156 is
reached).  `tps.getD (mx2 - 1) 0` mirrors `tp_levels[max_tp_idx - 1]`
(line 175); the scan guarantees `max_tp_idx ≤ len(tp_levels)`, so the
totalising default is never consulted on reachable inputs. -/
def finalize (entry sl : Rat) (tps : List Rat) (fe : FirstEvent) (mx : Nat) :
    LabelOut :=
  let out :=
    match fe with
    | .slEv => { defaultOut with hit_sl := true }
    | .tpEv i => setTpFlag defaultOut i
    | .noneEv => defaultOut
  let mx2 := match fe with | .slEv => 0 | _ => mx
  if (mx2 == 0) && !out.hit_sl then
    { out with first_event := "NONE", max_tp_reached := 0, rr_at_max_tp := 0 }
  else
    let out2 := { out with first_event := feString fe, max_tp_reached := mx2 }
    let risk := |entry - sl|
    if decide (0 < risk) && decide (0 < mx2) then
      { out2 with rr_at_max_tp := |tps.getD (mx2 - 1) 0 - entry| / risk }
    else if decide (0 < risk) && out.hit_sl then
      { out2 with rr_at_max_tp := -1 }
    else out2

/-- `label_one_alert` of `analyze_alerts.py` lines 79-181, restricted to the
outcome fields.  `tsParses` stands for success of
`datetime.fromisoformat(...)` (line 105); `fetched` stands for the result of
`fetch_future_klines` (line 115), `none` meaning the fetch raised.
`a.entry.getD 0` mirrors `float(alert.get("entry") or 0.0)` (line 87). -/
def label_one_alert (a : Alert) (tsParses : String → Bool)
    (fetched : Option (List Bar)) : LabelOut :=
  let entry : Rat := a.entry.getD 0
  if a.timestamp.getD "" = "" ∨ a.symbol.getD "" = "" ∨
      (a.side ≠ some "BUY" ∧ a.side ≠ some "SELL") ∨ entry = 0 ∨ a.sl = none then
    defaultOut
  else if tsParses (a.timestamp.getD "") = false then
    defaultOut
  else
    match fetched with
    | none => { defaultOut with kline_fetch_error := true }
    | some df =>
      let sl : Rat := a.sl.getD 0
      let side : String := a.side.getD ""
      let r := scanBars side sl a.tps df .noneEv 0
      finalize entry sl a.tps r.1 r.2

/-! ### Scoring engine — `src/scoring.py` -/

/-- The feature keys read by `score_signal` (`src/scoring.py` lines 35-67),
together with the bearish flags `ema_down` / `macd_neg` that the scanner
computes (`src/scanner.py` lines 282-283) but `score_signal` never reads. -/
structure Features where
  ema_align : Bool
  macd_pos : Bool
  vol_spike : Bool
  mtf_ema_align : Bool
  breakout : Bool
  retest : Bool
  bounce_support : Bool
  support_retest : Bool
  fall_resistance : Bool
  ema_down : Bool
  macd_neg : Bool
  ctx_adj : Int
  tags : List String
deriving Repr, DecidableEq

/-- A weight table: an association list modelling a Python dict of
integer weights. -/
def Weights : Type := List (String × Int)

/-- `d.get(key, 0)` on a weight dict. -/
def wget (w : Weights) (key : String) : Int :=
  match List.find? (fun p => p.1 = key) w with
  | some p => p.2
  | none => 0

/-- The two config sub-dicts read by `score_signal` (`src/scoring.py`
lines 29-30); `none` models a missing or null `weights` / `mtf_weights`
entry, which `config.get("weights", {}) or {}` turns into the empty dict. -/
structure ScoreConfig where
  weights : Option Weights
  mtf_weights : Option Weights

/-- Result dict of `score_signal` (`src/scoring.py` lines 71-77). -/
structure ScoreResult where
  final_score : Int
  base_score : Int
  mtf_score : Int
  ctx_adj : Int
  tags : List String
deriving Repr, DecidableEq

/-- `score_signal` of `src/scoring.py` lines 6-77. -/
def score_signal (f : Features) (cfg : ScoreConfig) : ScoreResult :=
  let weights := cfg.weights.getD []
  let mtf_weights := cfg.mtf_weights.getD []
  let base : Int :=
    (if f.ema_align then wget weights "ema_align" else 0)
    + (if f.macd_pos then wget weights "macd" else 0)
    + (if f.vol_spike then wget weights "vol_spike" else 0)
    + (if f.breakout then wget weights "breakout" else 0)
    + (if f.retest then wget weights "retest" else 0)
    + (if f.bounce_support then wget weights "retest" else 0)
    + (if f.support_retest then wget weights "retest" else 0)
    + (if f.fall_resistance then wget weights "retest" else 0)
  let mtf : Int := if f.mtf_ema_align then wget mtf_weights "ema" else 0
  let ctx : Int := f.ctx_adj
  { final_score := base + mtf + ctx, base_score := base, mtf_score := mtf,
    ctx_adj := ctx, tags := f.tags }

/-! ### Structural feature detector — `src/scanner.py` lines 226-275 -/

/-- The five structural flags computed for the current bar. -/
structure StructuralFlags where
  breakout : Bool
  bounce_from_support : Bool
  support_retest : Bool
  fall_from_resistance : Bool
  retest : Bool
deriving Repr, DecidableEq

/-- `(recent["low"] <= support_zone_high) & (recent["close"] > support)`
`.any()` over the trailing window (`src/scanner.py` lines 246-247); `recent`
is the list of (low, close) pairs of the last five candles before the
current one. -/
def hadRecentBounce (recent : List (Rat × Rat)) (support szHigh : Rat) : Bool :=
  recent.any (fun p => decide (p.1 ≤ szHigh) && decide (p.2 > support))

/-- Structural flag computation of `src/scanner.py` lines 226-275, over the
scalars extracted from the candle frame: `resistance` / `support` are the
window extrema of lines 213-224, `last_atr`, `last_close`, `last_low`,
`last_high` the current-bar values of lines 203-206, `prev_close` is
`candles.iloc[-2]["close"]` (line 248) and `recent` the five candles of
line 242. -/
def structuralFlags (resistance support last_atr last_close last_low last_high
    prev_close : Rat) (recent : List (Rat × Rat)) (min_move_pct : Rat) :
    StructuralFlags :=
  let breakout : Bool := decide (last_close > resistance * (1 + min_move_pct / 100))
  let support_zone_high := support + last_atr * (1 / 2)
  let bounce_from_support : Bool :=
    decide (last_low ≤ support_zone_high) && decide (last_close > support)
      && !breakout
  let had_recent_bounce := hadRecentBounce recent support support_zone_high
  let support_retest : Bool :=
    had_recent_bounce && decide (last_low ≤ support_zone_high)
      && decide (last_close > support) && decide (last_close ≥ prev_close)
      && !breakout
  let resistance_zone_low := resistance - last_atr * (1 / 2)
  let fall_from_resistance : Bool :=
    decide (last_high ≥ resistance_zone_low) && decide (last_close < resistance)
      && !breakout
  let retest_zone_high := resistance + last_atr * (1 / 2)
  let retest : Bool :=
    decide (last_low ≤ retest_zone_high) && decide (last_close ≥ resistance)
      && !breakout
  { breakout := breakout, bounce_from_support := bounce_from_support,
    support_retest := support_retest,
    fall_from_resistance := fall_from_resistance, retest := retest }

/-! ### Level calculator — `src/scanner.py` lines 371-395 -/

/-- The level variables produced before the record is built:
`entry`, `sl`, the `tps` ladder and the backward-compatibility
`tp1` / `tp2` of lines 394-395. -/
structure Levels where
  entry : Option Rat
  sl : Option Rat
  tps : List Rat
  tp1 : Option Rat
  tp2 : Option Rat
deriving Repr, DecidableEq

/-- Level building of `src/scanner.py` lines 371-395.  Note line 382 assigns
`entry = last_close` unconditionally, before the side branch. -/
def buildLevels (side : String) (last_close last_atr sl_multiplier : Rat)
    (tp_multipliers : List Rat) : Levels :=
  let entry := last_close
  let slTps : Option Rat × List Rat :=
    if side = "BUY" then
      (some (entry - last_atr * sl_multiplier),
       tp_multipliers.map (fun m => entry + last_atr * m))
    else if side = "SELL" then
      (some (entry + last_atr * sl_multiplier),
       tp_multipliers.map (fun m => entry - last_atr * m))
    else (none, [])
  { entry := some entry, sl := slTps.1, tps := slTps.2,
    tp1 := slTps.2[0]?, tp2 := slTps.2[1]? }

/-! ### Signal record and persisted line — `src/scanner.py` lines 82-112 and 397-419 -/

/-- A JSON-like Python value as it appears in the signal record dict and in
the persisted line.  The only list values occurring there are the string
list `tags` and the float list `tps`, so lists are given dedicated
constructors. -/
inductive Val where
  | vnull : Val
  | vstr : String → Val
  | vint : Int → Val
  | vrat : Rat → Val
  | vbool : Bool → Val
  | vstrList : List String → Val
  | vratList : List Rat → Val
deriving Repr, DecidableEq

/-- A Python dict with string keys, as an association list in literal
key order. -/
def Dict : Type := List (String × Val)

/-- `d.get(key)`: `none` when the key is absent. -/
def dget (d : Dict) (key : String) : Option Val :=
  match List.find? (fun p => p.1 = key) d with
  | some p => some p.2
  | none => none

/-- Python `str(v)`; `str(None)` is the string `"None"`.  Only the string
and `None` cases are exercised by records built by `mkSignalRecord`. -/
def pyStrV : Val → String
  | .vnull => "None"
  | .vstr s => s
  | .vint n => toString n
  | .vrat q => toString q
  | .vbool b => if b then "True" else "False"
  | .vstrList _ => "[...]"
  | .vratList _ => "[...]"

/-- Python `int(v)` on the values reachable in `log_signal`
(`None` would raise; records built by `mkSignalRecord` never store one
under an int-converted key). -/
def pyIntV : Val → Int
  | .vint n => n
  | .vbool b => if b then 1 else 0
  | .vrat q => q.floor
  | _ => 0

/-- Python `float(v)` on the values reachable in `log_signal`. -/
def pyFloatV : Val → Rat
  | .vrat q => q
  | .vint n => (n : Rat)
  | .vbool b => if b then 1 else 0
  | _ => 0

/-- Python `bool(v)` truthiness. -/
def pyBoolV : Val → Bool
  | .vnull => false
  | .vbool b => b
  | .vint n => decide (n ≠ 0)
  | .vrat q => decide (q ≠ 0)
  | .vstr s => decide (s ≠ "")
  | .vstrList l => decide (l ≠ [])
  | .vratList l => decide (l ≠ [])

/-- `[str(t) for t in v]`: iteration over a list value with each element
converted by `str` (only the string-list case is reachable for `tags`). -/
def pyStrListV : Val → List String
  | .vstrList l => l
  | .vratList l => l.map toString
  | _ => []

/-- `float(data.get(k, 0)) if data.get(k) is not None else None`
(`src/scanner.py` lines 98-101, 105-106). -/
def optFloatField (d : Dict) (k : String) : Val :=
  match dget d k with
  | none => .vnull
  | some .vnull => .vnull
  | some v => .vrat (pyFloatV v)

/-- `bool(data.get(k, False))`. -/
def boolField (d : Dict) (k : String) : Val :=
  .vbool (pyBoolV ((dget d k).getD (.vbool false)))

/-- `int(data.get(k, 0))`. -/
def intField (d : Dict) (k : String) : Val :=
  .vint (pyIntV ((dget d k).getD (.vint 0)))

/-- The sanitized `safe` dict that `log_signal` writes as one JSON line
(`src/scanner.py` lines 86-107), in literal key order. -/
def log_signal (data : Dict) : Dict :=
  [ ("timestamp", .vstr (pyStrV ((dget data "timestamp").getD .vnull))),
    ("symbol", .vstr (pyStrV ((dget data "symbol").getD .vnull))),
    ("final_score", intField data "final_score"),
    ("base_score", intField data "base_score"),
    ("side", .vstr (pyStrV ((dget data "side").getD (.vstr "NONE")))),
    ("tags", .vstrList (pyStrListV ((dget data "tags").getD (.vstrList [])))),
    ("ema_align", boolField data "ema_align"),
    ("macd_pos", boolField data "macd_pos"),
    ("vol_spike", boolField data "vol_spike"),
    ("tf15_confirm", boolField data "tf15_confirm"),
    ("swing_confirm", boolField data "swing_confirm"),
    ("entry", optFloatField data "entry"),
    ("sl", optFloatField data "sl"),
    ("tp1", optFloatField data "tp1"),
    ("tp2", optFloatField data "tp2"),
    ("btc_ctx", intField data "btc_ctx"),
    ("breakout", boolField data "breakout"),
    ("retest", boolField data "retest"),
    ("resistance", optFloatField data "resistance"),
    ("support", optFloatField data "support") ]

/-- The `record` dict literal of `analyze_symbol` (`src/scanner.py`
lines 397-419), in literal key order.  Its key set is fixed: in particular
it has a `tps` list but no `tp1` / `tp2` / `swing_confirm` key. -/
def mkSignalRecord (timestamp symbol : String) (final_score base_score : Int)
    (side : String) (tags : List String)
    (ema_align macd_pos vol_spike tf15_confirm : Bool)
    (entry sl : Val) (tps : List Rat) (btc_ctx : Int)
    (breakout retest bounce_support support_retest fall_resistance : Bool)
    (resistance support : Rat) : Dict :=
  [ ("timestamp", .vstr timestamp),
    ("symbol", .vstr symbol),
    ("final_score", .vint final_score),
    ("base_score", .vint base_score),
    ("side", .vstr side),
    ("tags", .vstrList tags),
    ("ema_align", .vbool ema_align),
    ("macd_pos", .vbool macd_pos),
    ("vol_spike", .vbool vol_spike),
    ("tf15_confirm", .vbool tf15_confirm),
    ("entry", entry),
    ("sl", sl),
    ("tps", .vratList tps),
    ("btc_ctx", .vint btc_ctx),
    ("breakout", .vbool breakout),
    ("retest", .vbool retest),
    ("bounce_support", .vbool bounce_support),
    ("support_retest", .vbool support_retest),
    ("fall_resistance", .vbool fall_resistance),
    ("resistance", .vrat resistance),
    ("support", .vrat support) ]

/-! ### Theorems -/

/-- C4: for every feature set and every weight configuration — including
configurations whose weight tables are missing keys entirely, since `wget`
returns 0 for an absent key and `score_signal` is total — the score result
satisfies `final_score = base_score + mtf_score + ctx_adj`, with `ctx_adj`
copied verbatim from the feature set. -/
theorem C4_final_score_invariant (f : Features) (cfg : ScoreConfig) :
    (score_signal f cfg).final_score =
        (score_signal f cfg).base_score + (score_signal f cfg).mtf_score +
          (score_signal f cfg).ctx_adj ∧
      (score_signal f cfg).ctx_adj = f.ctx_adj := ⟨rfl, rfl⟩

/-- A feature set whose bearish flags are the only true ones. -/
def bearishOnlyFeatures : Features :=
  { ema_align := false, macd_pos := false, vol_spike := false,
    mtf_ema_align := false, breakout := false, retest := false,
    bounce_support := false, support_retest := false, fall_resistance := false,
    ema_down := true, macd_neg := true, ctx_adj := 0, tags := [] }

/-- A configuration in which every bullish weight key and every plausible
bearish weight key carries a non-zero weight. -/
def allKeysConfig : ScoreConfig :=
  ⟨some [("ema_align", 10), ("macd", 9), ("vol_spike", 8), ("breakout", 7),
      ("retest", 6), ("ema_down", 5), ("macd_neg", 4), ("macd_down", 3),
      ("breakdown", 2), ("retest_short", 1)],
    some [("ema", 12)]⟩

/-- C5 counterexample: a feature set with `ema_down` and `macd_neg` true
contributes nothing to `base_score` even though every bearish and bullish
weight key is configured non-zero — `score_signal` never reads the bearish
feature keys, so the claimed side-dependent weighting does not exist. -/
theorem C5_counterexample :
    bearishOnlyFeatures.ema_down = true ∧ bearishOnlyFeatures.macd_neg = true ∧
      wget (allKeysConfig.weights.getD []) "ema_down" ≠ 0 ∧
      wget (allKeysConfig.weights.getD []) "macd_neg" ≠ 0 ∧
      wget (allKeysConfig.weights.getD []) "breakdown" ≠ 0 ∧
      wget (allKeysConfig.weights.getD []) "retest_short" ≠ 0 ∧
      (score_signal bearishOnlyFeatures allKeysConfig).base_score = 0 := by
  refine ⟨rfl, rfl, ?_, ?_, ?_, ?_, rfl⟩ <;> decide

/-- C5 amended: `score_signal` has no side input and never reads the bearish
feature keys `ema_down` / `macd_neg` (nor any `breakdown` / `retest_short`
feature), so its entire result is invariant under changing those flags: on a
SELL signal the bearish features contribute nothing, whatever weights are
configured. -/
theorem C5_amended_side_independent (f : Features) (cfg : ScoreConfig)
    (b1 b2 : Bool) :
    score_signal { f with ema_down := b1, macd_neg := b2 } cfg =
      score_signal f cfg := rfl

/-- C7: if the structural feature detector reports a breakout for the
current bar, the retest, bounce-from-support, support-retest and
fall-from-resistance flags of that bar are all false: each of the four is
conjoined with `not breakout` in `src/scanner.py` lines 234-275. -/
theorem C7_breakout_priority (resistance support last_atr last_close last_low
    last_high prev_close : Rat) (recent : List (Rat × Rat)) (min_move_pct : Rat)
    (h : (structuralFlags resistance support last_atr last_close last_low
        last_high prev_close recent min_move_pct).breakout = true) :
    (structuralFlags resistance support last_atr last_close last_low
        last_high prev_close recent min_move_pct).retest = false ∧
      (structuralFlags resistance support last_atr last_close last_low
        last_high prev_close recent min_move_pct).bounce_from_support = false ∧
      (structuralFlags resistance support last_atr last_close last_low
        last_high prev_close recent min_move_pct).support_retest = false ∧
      (structuralFlags resistance support last_atr last_close last_low
        last_high prev_close recent min_move_pct).fall_from_resistance = false := by
  simp only [structuralFlags] at h ⊢
  simp [h]

/-- C7 witness: a concrete bar with a genuine breakout, on which all four
competing structural flags are forced false. -/
theorem C7_witness :
    (structuralFlags 100 50 2 102 101 103 100 [] (1 / 2)).breakout = true ∧
      ((structuralFlags 100 50 2 102 101 103 100 [] (1 / 2)).retest = false ∧
        (structuralFlags 100 50 2 102 101 103 100 [] (1 / 2)).bounce_from_support
            = false ∧
        (structuralFlags 100 50 2 102 101 103 100 [] (1 / 2)).support_retest
            = false ∧
        (structuralFlags 100 50 2 102 101 103 100 [] (1 / 2)).fall_from_resistance
            = false) :=
  ⟨by norm_num [structuralFlags], C7_breakout_priority 100 50 2 102 101 103 100
    [] (1 / 2) (by norm_num [structuralFlags])⟩

/-- C8 counterexample: with side `"NONE"` the level builder leaves the
stop-loss unset and the ladder empty, but `entry` is still populated with
the last close (`src/scanner.py` line 382 runs before the side branch), so a
partial level set — an entry without stop-loss or ladder — is produced,
contradicting the claim that entry is unset. -/
theorem C8_counterexample :
    (buildLevels "NONE" 100 5 (3 / 2) [2, 3, 9 / 2, 6]).entry = some 100 ∧
      (buildLevels "NONE" 100 5 (3 / 2) [2, 3, 9 / 2, 6]).entry ≠ none ∧
      (buildLevels "NONE" 100 5 (3 / 2) [2, 3, 9 / 2, 6]).sl = none ∧
      (buildLevels "NONE" 100 5 (3 / 2) [2, 3, 9 / 2, 6]).tps = [] := by
  refine ⟨rfl, ?_, rfl, rfl⟩
  simp [buildLevels]

/-- C8 amended: whenever the decided side is `"NONE"`, the produced level
set has stop-loss unset and an empty take-profit ladder, but `entry` is
always set to the last close — the unconditional assignment of
`src/scanner.py` line 382 — so an entry-only partial level set is produced. -/
theorem C8_amended_none_levels (last_close last_atr sl_multiplier : Rat)
    (tp_multipliers : List Rat) :
    buildLevels "NONE" last_close last_atr sl_multiplier tp_multipliers =
      { entry := some last_close, sl := none, tps := [], tp1 := none,
        tp2 := none } := rfl

/-- A concrete BUY signal record with the default four-level ladder and
`bounce_support` set, as `analyze_symbol` builds it. -/
def demoRecord : Dict :=
  mkSignalRecord "2024-01-01T00:00:00" "BTC_USDT" 50 40 "BUY" ["EMA"]
    true false false false (.vrat 100) (.vrat 90) [110, 120, 145, 160] 3
    false false true false false 120 80

/-- C6 counterexample: the record holds a four-level ladder under `tps` and
`bounce_support = true`, yet the persisted line has no `tps`,
`bounce_support`, `support_retest` or `fall_resistance` key at all, has no
`tp3` / `tp4` key, and its `tp1` / `tp2` are null because `log_signal` reads
the keys `tp1` / `tp2`, which the record never contains — so the line does
not carry the full ladder nor all structural flags of the record. -/
theorem C6_counterexample :
    dget demoRecord "tps" = some (.vratList [110, 120, 145, 160]) ∧
      dget demoRecord "bounce_support" = some (.vbool true) ∧
      dget (log_signal demoRecord) "tp1" = some .vnull ∧
      dget (log_signal demoRecord) "tp2" = some .vnull ∧
      dget (log_signal demoRecord) "tp3" = none ∧
      dget (log_signal demoRecord) "tps" = none ∧
      dget (log_signal demoRecord) "bounce_support" = none ∧
      dget (log_signal demoRecord) "support_retest" = none ∧
      dget (log_signal demoRecord) "fall_resistance" = none :=
  ⟨rfl, rfl, rfl, rfl, rfl, rfl, rfl, rfl, rfl⟩

/-- C6 amended: every persisted signal line is a sanitized, typed projection
of a fixed 20-key subset of the record (with `swing_confirm` defaulting to
false, a key the record does not carry); the `tps` ladder and the
`bounce_support` / `support_retest` / `fall_resistance` flags of the record
are not persisted, and `tp1` / `tp2` are always null because they are read
from keys absent in the record.  Scores default to 0 and absent numeric
levels are emitted as null. -/
theorem C6_amended_projection (timestamp symbol : String)
    (final_score base_score : Int) (side : String) (tags : List String)
    (ema_align macd_pos vol_spike tf15_confirm : Bool) (entry sl : Val)
    (tps : List Rat) (btc_ctx : Int)
    (breakout retest bounce_support support_retest fall_resistance : Bool)
    (resistance support : Rat) :
    (log_signal (mkSignalRecord timestamp symbol final_score base_score side
        tags ema_align macd_pos vol_spike tf15_confirm entry sl tps btc_ctx
        breakout retest bounce_support support_retest fall_resistance
        resistance support)).map Prod.fst =
        ["timestamp", "symbol", "final_score", "base_score", "side", "tags",
         "ema_align", "macd_pos", "vol_spike", "tf15_confirm", "swing_confirm",
         "entry", "sl", "tp1", "tp2", "btc_ctx", "breakout", "retest",
         "resistance", "support"] ∧
      dget (log_signal (mkSignalRecord timestamp symbol final_score base_score
        side tags ema_align macd_pos vol_spike tf15_confirm entry sl tps
        btc_ctx breakout retest bounce_support support_retest fall_resistance
        resistance support)) "tp1" = some .vnull ∧
      dget (log_signal (mkSignalRecord timestamp symbol final_score base_score
        side tags ema_align macd_pos vol_spike tf15_confirm entry sl tps
        btc_ctx breakout retest bounce_support support_retest fall_resistance
        resistance support)) "tp2" = some .vnull ∧
      dget (log_signal (mkSignalRecord timestamp symbol final_score base_score
        side tags ema_align macd_pos vol_spike tf15_confirm entry sl tps
        btc_ctx breakout retest bounce_support support_retest fall_resistance
        resistance support)) "swing_confirm" = some (.vbool false) :=
  ⟨rfl, rfl, rfl, rfl⟩

/-- Candles that touch no level leave the scan state unchanged. -/
theorem scanBars_skip_untouched (side : String) (slv : Rat) (tps : List Rat)
    (pre rest : List Bar)
    (h : ∀ x ∈ pre, slTouch side slv x = false ∧
      firstHitIdx (tpHits side tps x) = none) (fe : FirstEvent) (mx : Nat) :
    scanBars side slv tps (pre ++ rest) fe mx =
      scanBars side slv tps rest fe mx := by
  induction pre generalizing fe mx with
  | nil => rfl
  | cons x xs ih =>
    obtain ⟨h1, h2⟩ := h x (List.mem_cons_self x xs)
    simp only [List.cons_append, scanBars, h1, h2, Bool.false_eq_true,
      if_false]
    exact ih (fun y hy => h y (List.mem_cons_of_mem x hy)) fe mx

/-- If no candle before `sb` touches the stop-loss and `sb` does, the scan
ends with first event `SL`, whatever take-profit levels were touched on the
way. -/
theorem scanBars_reaches_sl (side : String) (slv : Rat) (tps : List Rat)
    (bs post : List Bar) (sb : Bar)
    (h : ∀ x ∈ bs, slTouch side slv x = false)
    (hsb : slTouch side slv sb = true) (fe : FirstEvent) (mx : Nat) :
    ∃ m, scanBars side slv tps (bs ++ sb :: post) fe mx = (.slEv, m) := by
  induction bs generalizing fe mx with
  | nil => exact ⟨mx, by simp [scanBars, hsb]⟩
  | cons x xs ih =>
    have h1 := h x (List.mem_cons_self x xs)
    have hrest : ∀ y ∈ xs, slTouch side slv y = false :=
      fun y hy => h y (List.mem_cons_of_mem x hy)
    simp only [List.cons_append, scanBars, h1, Bool.false_eq_true, if_false]
    cases hfi : firstHitIdx (tpHits side tps x) with
    | none => exact ih hrest fe mx
    | some i => exact ih hrest (.tpEv i) (max mx i)

/-- Post-scan bookkeeping of a stop-loss outcome: whenever the risk is
non-degenerate (`entry ≠ sl`), the result is the SL record with
`max_tp_reached` reset to 0 and risk:reward −1. -/
theorem finalize_slEv (e slv : Rat) (tps : List Rat) (mx : Nat)
    (h : e ≠ slv) :
    finalize e slv tps .slEv mx =
      { defaultOut with
          hit_sl := true
          first_event := "SL"
          max_tp_reached := 0
          rr_at_max_tp := -1 } := by
  have hr : 0 < |e - slv| := abs_pos.mpr (sub_ne_zero.mpr h)
  unfold finalize
  dsimp only [feString]
  rw [decide_eq_true hr]
  simp [defaultOut]

/-- C1 counterexample: a BUY alert with `entry = stop_loss = 100` whose
first forward bar touches both the stop-loss (low 85 ≤ 100) and TP1
(high 115 ≥ 110).  The scan does terminate with first event SL, but
`rr_at_max_tp` stays 0.0 instead of the claimed −1.0, because the
`risk > 0` guard of `analyze_alerts.py` line 178 fails when
`entry == sl`. -/
theorem C1_counterexample :
    slTouch "BUY" 100 ⟨115, 85⟩ = true ∧
      firstHitIdx (tpHits "BUY" [110] ⟨115, 85⟩) = some 1 ∧
      (label_one_alert ⟨some "t", some "s", some "BUY", some 100, some 100,
          [110]⟩ (fun _ => true) (some [⟨115, 85⟩])).first_event = "SL" ∧
      (label_one_alert ⟨some "t", some "s", some "BUY", some 100, some 100,
          [110]⟩ (fun _ => true) (some [⟨115, 85⟩])).hit_sl = true ∧
      (label_one_alert ⟨some "t", some "s", some "BUY", some 100, some 100,
          [110]⟩ (fun _ => true) (some [⟨115, 85⟩])).rr_at_max_tp = 0 ∧
      (label_one_alert ⟨some "t", some "s", some "BUY", some 100, some 100,
          [110]⟩ (fun _ => true) (some [⟨115, 85⟩])).rr_at_max_tp ≠ -1 := by
  have hstep : label_one_alert ⟨some "t", some "s", some "BUY", some 100,
      some 100, [110]⟩ (fun _ => true) (some [⟨115, 85⟩]) =
      finalize 100 100 [110] .slEv 0 := rfl
  have hfin : finalize 100 100 [110] .slEv 0 =
      { defaultOut with hit_sl := true, first_event := "SL" } := by
    unfold finalize
    dsimp only [feString]
    rw [show |(100 : Rat) - 100| = 0 from by norm_num]
    simp [defaultOut]
  have hlab : label_one_alert ⟨some "t", some "s", some "BUY", some 100,
      some 100, [110]⟩ (fun _ => true) (some [⟨115, 85⟩]) =
      { defaultOut with hit_sl := true, first_event := "SL" } :=
    hstep.trans hfin
  refine ⟨rfl, rfl, ?_, ?_, ?_, ?_⟩ <;> rw [hlab] <;> norm_num [defaultOut]

/-- C1 amended: for every well-formed signal record with side BUY or SELL
and `entry ≠ stop_loss`, if no earlier forward bar touches any level and a
bar touches the stop-loss (regardless of simultaneously touched take-profit
levels), the result is `first_event = "SL"`, `hit_sl = true`,
`max_tp_reached = 0`, `rr_at_max_tp = −1.0`: the stop-loss is checked before
any take-profit inside a bar and the scan terminates there.  (The original
claim omitted `entry ≠ stop_loss`; with zero risk the −1.0 assignment is
skipped and `rr_at_max_tp` stays 0.0.) -/
theorem C1_sl_priority_amended (ts sym sd : String) (e slv : Rat)
    (tps : List Rat) (tsP : String → Bool) (pre post : List Bar) (b : Bar)
    (hts : ts ≠ "") (hsym : sym ≠ "") (hsd : sd = "BUY" ∨ sd = "SELL")
    (he : e ≠ 0) (hrisk : e ≠ slv) (hparse : tsP ts = true)
    (hpre : ∀ x ∈ pre, slTouch sd slv x = false ∧
      firstHitIdx (tpHits sd tps x) = none)
    (hsl : slTouch sd slv b = true)
    (_htp : firstHitIdx (tpHits sd tps b) ≠ none) :
    label_one_alert ⟨some ts, some sym, some sd, some e, some slv, tps⟩ tsP
        (some (pre ++ b :: post)) =
      { defaultOut with
          hit_sl := true
          first_event := "SL"
          max_tp_reached := 0
          rr_at_max_tp := -1 } := by
  have hvalid : ¬(ts = "" ∨ sym = "" ∨
      ((some sd : Option String) ≠ some "BUY" ∧
        (some sd : Option String) ≠ some "SELL") ∨
      e = 0 ∨ (some slv : Option Rat) = none) := by
    rcases hsd with h | h <;> simp [hts, hsym, he, h]
  unfold label_one_alert
  simp only [Option.getD_some]
  rw [if_neg hvalid, if_neg (by simp [hparse])]
  rw [scanBars_skip_untouched sd slv tps pre (b :: post) hpre]
  rw [show scanBars sd slv tps (b :: post) .noneEv 0 = (.slEv, 0) from by
    simp [scanBars, hsl]]
  exact finalize_slEv e slv tps 0 hrisk

/-- C1 witness: the amended theorem applied to the spec's SL-priority
example with a non-degenerate stop (entry 100, stop 90, TP 110, one bar with
low 85 and high 115). -/
theorem C1_witness :
    label_one_alert ⟨some "t", some "s", some "BUY", some 100, some 90,
        [110]⟩ (fun _ => true) (some ([] ++ ⟨115, 85⟩ :: [])) =
      { defaultOut with
          hit_sl := true
          first_event := "SL"
          max_tp_reached := 0
          rr_at_max_tp := -1 } :=
  C1_sl_priority_amended "t" "s" "BUY" 100 90 [110] (fun _ => true) [] []
    ⟨115, 85⟩ (by simp) (by simp) (Or.inl rfl) (by norm_num) (by norm_num)
    rfl (by simp) (by decide) (by decide)

/-- C3 counterexample: BUY alert, entry 100, stop 90, TP ladder [110]; bar 1
(high 112, low 100) touches TP1 and not the stop, bar 2 (high 101, low 85)
touches the stop.  The code reports `first_event = "SL"`, `hit_sl = true`,
`hit_tp1 = false`, `max_tp_reached = 0` and `rr_at_max_tp = −1`: the later
stop-loss overwrites the earlier take-profit touch instead of preserving
`first_event = "TP1"` and `max_tp_reached = 1` as claimed. -/
theorem C3_counterexample :
    slTouch "BUY" 90 ⟨112, 100⟩ = false ∧
      firstHitIdx (tpHits "BUY" [110] ⟨112, 100⟩) = some 1 ∧
      slTouch "BUY" 90 ⟨101, 85⟩ = true ∧
      (label_one_alert ⟨some "t", some "s", some "BUY", some 100, some 90,
          [110]⟩ (fun _ => true)
          (some [⟨112, 100⟩, ⟨101, 85⟩])).first_event = "SL" ∧
      (label_one_alert ⟨some "t", some "s", some "BUY", some 100, some 90,
          [110]⟩ (fun _ => true)
          (some [⟨112, 100⟩, ⟨101, 85⟩])).first_event ≠ "TP1" ∧
      (label_one_alert ⟨some "t", some "s", some "BUY", some 100, some 90,
          [110]⟩ (fun _ => true)
          (some [⟨112, 100⟩, ⟨101, 85⟩])).hit_tp1 = false ∧
      (label_one_alert ⟨some "t", some "s", some "BUY", some 100, some 90,
          [110]⟩ (fun _ => true)
          (some [⟨112, 100⟩, ⟨101, 85⟩])).max_tp_reached = 0 := by
  have hstep : label_one_alert ⟨some "t", some "s", some "BUY", some 100,
      some 90, [110]⟩ (fun _ => true) (some [⟨112, 100⟩, ⟨101, 85⟩]) =
      finalize 100 90 [110] .slEv 1 := rfl
  have hfin := finalize_slEv 100 90 [110] 1 (by norm_num)
  have hlab := hstep.trans hfin
  refine ⟨rfl, rfl, rfl, ?_, ?_, ?_, ?_⟩ <;> rw [hlab] <;>
    simp [defaultOut]

/-- C3 amended: the bar-by-bar scan stops early only on a stop-loss touch
and otherwise continues past take-profit touches to the end of the horizon;
however, when the stop-loss is touched in a later bar, it overwrites any
earlier take-profit record: `first_event` becomes `"SL"`, `hit_sl = true`,
`max_tp_reached` is reset to 0 and `rr_at_max_tp = −1.0` (for non-degenerate
risk), rather than keeping the earlier take-profit touch. -/
theorem C3_sl_overwrites_amended (ts sym sd : String) (e slv : Rat)
    (tps : List Rat) (tsP : String → Bool) (bs post : List Bar) (sb : Bar)
    (hts : ts ≠ "") (hsym : sym ≠ "") (hsd : sd = "BUY" ∨ sd = "SELL")
    (he : e ≠ 0) (hrisk : e ≠ slv) (hparse : tsP ts = true)
    (hbs : ∀ x ∈ bs, slTouch sd slv x = false)
    (hsb : slTouch sd slv sb = true)
    (_htp : ∃ x ∈ bs, firstHitIdx (tpHits sd tps x) ≠ none) :
    label_one_alert ⟨some ts, some sym, some sd, some e, some slv, tps⟩ tsP
        (some (bs ++ sb :: post)) =
      { defaultOut with
          hit_sl := true
          first_event := "SL"
          max_tp_reached := 0
          rr_at_max_tp := -1 } := by
  have hvalid : ¬(ts = "" ∨ sym = "" ∨
      ((some sd : Option String) ≠ some "BUY" ∧
        (some sd : Option String) ≠ some "SELL") ∨
      e = 0 ∨ (some slv : Option Rat) = none) := by
    rcases hsd with h | h <;> simp [hts, hsym, he, h]
  obtain ⟨m, hm⟩ := scanBars_reaches_sl sd slv tps bs post sb hbs hsb
    .noneEv 0
  unfold label_one_alert
  simp only [Option.getD_some]
  rw [if_neg hvalid, if_neg (by simp [hparse])]
  rw [hm]
  exact finalize_slEv e slv tps m hrisk

/-- C3 witness: the amended theorem applied to the counterexample's inputs —
TP1 touched in bar 1, stop-loss touched in bar 2. -/
theorem C3_witness :
    label_one_alert ⟨some "t", some "s", some "BUY", some 100, some 90,
        [110]⟩ (fun _ => true) (some ([⟨112, 100⟩] ++ ⟨101, 85⟩ :: [])) =
      { defaultOut with
          hit_sl := true
          first_event := "SL"
          max_tp_reached := 0
          rr_at_max_tp := -1 } :=
  C3_sl_overwrites_amended "t" "s" "BUY" 100 90 [110] (fun _ => true)
    [⟨112, 100⟩] [] ⟨101, 85⟩ (by simp) (by simp) (Or.inl rfl) (by norm_num)
    (by norm_num) rfl (by decide) (by decide)
    ⟨⟨112, 100⟩, by simp, by decide⟩

/-- C2 (code bug): on the spec's own example — BUY, entry 100, stop 90,
TP ladder [110, 120], bar 1 high 112 / low 100, bar 2 high 125 / low 100 —
the code returns `max_tp_reached = 1` and `rr_at_max_tp = 1.0`, not the
claimed 2 and 2.0: the inner loop of `analyze_alerts.py` lines 144-150
breaks at the first (lowest) touched TP index of each bar, so with an
ascending ladder a deeper level can never be recorded even though bar 2
touches TP2 (high 125 ≥ 120). -/
theorem C2_code_eval :
    decide ((125 : Rat) ≥ 120) = true ∧
      label_one_alert ⟨some "t", some "s", some "BUY", some 100, some 90,
          [110, 120]⟩ (fun _ => true) (some [⟨112, 100⟩, ⟨125, 100⟩]) =
        { defaultOut with
            hit_tp1 := true
            first_event := "TP1"
            max_tp_reached := 1
            rr_at_max_tp := 1 } ∧
      (label_one_alert ⟨some "t", some "s", some "BUY", some 100, some 90,
          [110, 120]⟩ (fun _ => true)
          (some [⟨112, 100⟩, ⟨125, 100⟩])).max_tp_reached ≠ 2 ∧
      (label_one_alert ⟨some "t", some "s", some "BUY", some 100, some 90,
          [110, 120]⟩ (fun _ => true)
          (some [⟨112, 100⟩, ⟨125, 100⟩])).rr_at_max_tp ≠ 2 := by
  have hstep : label_one_alert ⟨some "t", some "s", some "BUY", some 100,
      some 90, [110, 120]⟩ (fun _ => true)
      (some [⟨112, 100⟩, ⟨125, 100⟩]) =
      finalize 100 90 [110, 120] (.tpEv 1) 1 := rfl
  have hfin : finalize 100 90 [110, 120] (.tpEv 1) 1 =
      { defaultOut with
          hit_tp1 := true
          first_event := "TP1"
          max_tp_reached := 1
          rr_at_max_tp := 1 } := by
    unfold finalize
    norm_num [setTpFlag, feString, defaultOut, List.getD]
    rfl
  have hlab := hstep.trans hfin
  refine ⟨rfl, hlab, ?_, ?_⟩ <;> rw [hlab] <;> simp [defaultOut]

/-- C9: for every alert record that fails validation — missing/empty
timestamp, missing/empty symbol, side other than BUY/SELL, missing or zero
entry, missing stop-loss, or an unparseable timestamp — `label_one_alert`
returns exactly the default Label Result (`hit_sl` and all `hit_tp` flags
false, `first_event = "NONE"`, `max_tp_reached = 0`, `rr_at_max_tp = 0.0`),
for any fetched bar series: batch labeling is fault-isolated per record. -/
theorem C9_malformed_default (a : Alert) (tsP : String → Bool)
    (fetched : Option (List Bar))
    (h : a.timestamp.getD "" = "" ∨ a.symbol.getD "" = "" ∨
      (a.side ≠ some "BUY" ∧ a.side ≠ some "SELL") ∨ a.entry.getD 0 = 0 ∨
      a.sl = none ∨ tsP (a.timestamp.getD "") = false) :
    label_one_alert a tsP fetched = defaultOut := by
  by_cases hv : a.timestamp.getD "" = "" ∨ a.symbol.getD "" = "" ∨
      (a.side ≠ some "BUY" ∧ a.side ≠ some "SELL") ∨ a.entry.getD 0 = 0 ∨
      a.sl = none
  · unfold label_one_alert
    rw [if_pos hv]
  · have hp : tsP (a.timestamp.getD "") = false := by
      rcases h with h | h | h | h | h | h
      · exact absurd (Or.inl h) hv
      · exact absurd (Or.inr (Or.inl h)) hv
      · exact absurd (Or.inr (Or.inr (Or.inl h))) hv
      · exact absurd (Or.inr (Or.inr (Or.inr (Or.inl h)))) hv
      · exact absurd (Or.inr (Or.inr (Or.inr (Or.inr h)))) hv
      · exact h
    unfold label_one_alert
    rw [if_neg hv, if_pos hp]

/-- C9 witness: an alert with no timestamp is labeled with the default
result. -/
theorem C9_witness :
    label_one_alert ⟨none, some "BTC_USDT", some "BUY", some 100, some 90,
        []⟩ (fun _ => true) (some [⟨115, 85⟩]) = defaultOut :=
  C9_malformed_default _ _ _ (Or.inl rfl)

/-- Number of outcome flags among `hit_sl`, `hit_tp1` .. `hit_tp4` that are
set. -/
def hitFlagCount (o : LabelOut) : Nat :=
  (if o.hit_sl then 1 else 0) + (if o.hit_tp1 then 1 else 0) +
    (if o.hit_tp2 then 1 else 0) + (if o.hit_tp3 then 1 else 0) +
    (if o.hit_tp4 then 1 else 0)

/-- Setting one take-profit flag on the default record leaves at most one
flag set. -/
theorem hitFlagCount_setTpFlag (i : Nat) :
    hitFlagCount (setTpFlag defaultOut i) ≤ 1 := by
  unfold setTpFlag
  split_ifs <;> simp [hitFlagCount, defaultOut]

/-- `setTpFlag` never sets the stop-loss flag, and each take-profit flag it
can set identifies the index it was given. -/
theorem setTpFlag_flags (i : Nat) :
    (setTpFlag defaultOut i).hit_sl = false ∧
      ((setTpFlag defaultOut i).hit_tp1 = true → i = 1) ∧
      ((setTpFlag defaultOut i).hit_tp2 = true → i = 2) ∧
      ((setTpFlag defaultOut i).hit_tp3 = true → i = 3) ∧
      ((setTpFlag defaultOut i).hit_tp4 = true → i = 4) := by
  unfold setTpFlag
  split_ifs <;> simp_all [defaultOut]

/-- The 1-based index of the first touched take-profit is at least 1. -/
theorem firstHitIdx_pos (l : List Bool) (i : Nat)
    (h : firstHitIdx l = some i) : 1 ≤ i := by
  induction l generalizing i with
  | nil => simp [firstHitIdx] at h
  | cons b t ih =>
    simp only [firstHitIdx] at h
    split_ifs at h with hb
    · injection h with h
      omega
    · cases hfi : firstHitIdx t with
      | none => rw [hfi] at h; simp at h
      | some j =>
        rw [hfi] at h
        simp at h
        omega

/-- Scan invariant: whenever the scan state records a take-profit first
event, `max_tp_idx` is positive — the bar that set `first_event = "TP{i}"`
also raised `max_tp_idx` to at least `i ≥ 1`. -/
theorem scanBars_tpEv_pos (side : String) (slv : Rat) (tps : List Rat)
    (bars : List Bar) (fe : FirstEvent) (mx : Nat)
    (h : ∀ j, fe = .tpEv j → 1 ≤ mx) :
    ∀ j, (scanBars side slv tps bars fe mx).1 = .tpEv j →
      1 ≤ (scanBars side slv tps bars fe mx).2 := by
  induction bars generalizing fe mx with
  | nil => exact h
  | cons b rest ih =>
    simp only [scanBars]
    split_ifs with hb
    · intro j hj
      cases hj
    · cases hfi : firstHitIdx (tpHits side tps b) with
      | none => exact ih fe mx h
      | some i =>
        refine ih (.tpEv i) (max mx i) (fun j hj => ?_)
        have := firstHitIdx_pos (tpHits side tps b) i hfi
        omega

/-- A stop-loss first event finalizes to the SL record (with whatever
risk:reward the risk guards produce). -/
theorem finalize_slEv_shape (e s : Rat) (tps : List Rat) (mx : Nat) :
    ∃ r : Rat, finalize e s tps .slEv mx =
      { defaultOut with
          hit_sl := true
          first_event := "SL"
          max_tp_reached := 0
          rr_at_max_tp := r } := by
  unfold finalize
  dsimp only [feString]
  split_ifs with h1 h2 h3 <;> first | (exact ⟨_, rfl⟩) | simp at h1

/-- No first event finalizes to a record with all flags false and
`first_event = "NONE"`. -/
theorem finalize_noneEv_shape (e s : Rat) (tps : List Rat) (mx : Nat) :
    ∃ n : Nat, ∃ r : Rat, finalize e s tps .noneEv mx =
      { defaultOut with
          first_event := "NONE"
          max_tp_reached := n
          rr_at_max_tp := r } := by
  unfold finalize
  dsimp only [feString]
  split_ifs <;> exact ⟨_, _, rfl⟩

/-- A take-profit first event with positive `max_tp_idx` — the only
combination the scan can produce — finalizes with the flag chosen by
`setTpFlag` and `first_event = "TP{i}"`. -/
theorem finalize_tpEv_shape (e s : Rat) (tps : List Rat) (i mx : Nat)
    (hmx : 1 ≤ mx) :
    ∃ r : Rat, finalize e s tps (.tpEv i) mx =
      { setTpFlag defaultOut i with
          first_event := "TP" ++ toString i
          max_tp_reached := mx
          rr_at_max_tp := r } := by
  have hmx0 : (mx == 0) = false := by simp; omega
  unfold finalize
  dsimp only [feString]
  rw [hmx0]
  simp only [Bool.false_and, Bool.false_eq_true, if_false]
  split_ifs <;> exact ⟨_, rfl⟩

/-- The post-scan bookkeeping sets at most one flag, and any set flag is the
one named by `first_event`, provided a take-profit first event comes with a
positive `max_tp_idx` (the scan invariant). -/
theorem finalize_event_flags (e s : Rat) (tps : List Rat) (fe : FirstEvent)
    (mx : Nat) (hfe : ∀ j, fe = .tpEv j → 1 ≤ mx) :
    hitFlagCount (finalize e s tps fe mx) ≤ 1 ∧
      ((finalize e s tps fe mx).hit_sl = true →
        (finalize e s tps fe mx).first_event = "SL") ∧
      ((finalize e s tps fe mx).hit_tp1 = true →
        (finalize e s tps fe mx).first_event = "TP1") ∧
      ((finalize e s tps fe mx).hit_tp2 = true →
        (finalize e s tps fe mx).first_event = "TP2") ∧
      ((finalize e s tps fe mx).hit_tp3 = true →
        (finalize e s tps fe mx).first_event = "TP3") ∧
      ((finalize e s tps fe mx).hit_tp4 = true →
        (finalize e s tps fe mx).first_event = "TP4") := by
  cases fe with
  | noneEv =>
    obtain ⟨n, r, hsh⟩ := finalize_noneEv_shape e s tps mx
    rw [hsh]
    simp [hitFlagCount, defaultOut]
  | slEv =>
    obtain ⟨r, hsh⟩ := finalize_slEv_shape e s tps mx
    rw [hsh]
    simp [hitFlagCount, defaultOut]
  | tpEv i =>
    obtain ⟨r, hsh⟩ := finalize_tpEv_shape e s tps i mx (hfe i rfl)
    obtain ⟨hsl, h1, h2, h3, h4⟩ := setTpFlag_flags i
    rw [hsh]
    refine ⟨hitFlagCount_setTpFlag i, ?_, ?_, ?_, ?_, ?_⟩ <;> intro hx
    · rw [hsl] at hx
      exact Bool.noConfusion hx
    · rw [h1 hx]
      rfl
    · rw [h2 hx]
      rfl
    · rw [h3 hx]
      rfl
    · rw [h4 hx]
      rfl

/-- C10: for every alert record and every outcome of the external parse and
fetch, the Label Result has at most one of `hit_sl`, `hit_tp1` .. `hit_tp4`
set, and any flag that is set is exactly the one named by `first_event`
(`hit_sl` only with `first_event = "SL"`, `hit_tp{i}` only with
`first_event = "TP{i}"`); all other hit flags remain false, even when
several take-profit levels were touched during the horizon. -/
theorem C10_flag_matches_first_event (a : Alert) (tsP : String → Bool)
    (fetched : Option (List Bar)) :
    hitFlagCount (label_one_alert a tsP fetched) ≤ 1 ∧
      ((label_one_alert a tsP fetched).hit_sl = true →
        (label_one_alert a tsP fetched).first_event = "SL") ∧
      ((label_one_alert a tsP fetched).hit_tp1 = true →
        (label_one_alert a tsP fetched).first_event = "TP1") ∧
      ((label_one_alert a tsP fetched).hit_tp2 = true →
        (label_one_alert a tsP fetched).first_event = "TP2") ∧
      ((label_one_alert a tsP fetched).hit_tp3 = true →
        (label_one_alert a tsP fetched).first_event = "TP3") ∧
      ((label_one_alert a tsP fetched).hit_tp4 = true →
        (label_one_alert a tsP fetched).first_event = "TP4") := by
  unfold label_one_alert
  dsimp only
  split_ifs
  · simp [hitFlagCount, defaultOut]
  · simp [hitFlagCount, defaultOut]
  · cases fetched with
    | none => simp [hitFlagCount, defaultOut]
    | some df =>
      exact finalize_event_flags _ _ _ _ _
        (scanBars_tpEv_pos _ _ _ df .noneEv 0 (fun j hj => by cases hj))

/-- C10 witness: a run whose single bar touches TP1 — the theorem applied
there shows the set flag `hit_tp1` is the one named by
`first_event = "TP1"`. -/
theorem C10_witness :
    (label_one_alert ⟨some "t", some "s", some "BUY", some 100, some 90,
        [110]⟩ (fun _ => true) (some [⟨112, 100⟩])).hit_tp1 = true ∧
      (label_one_alert ⟨some "t", some "s", some "BUY", some 100, some 90,
        [110]⟩ (fun _ => true) (some [⟨112, 100⟩])).first_event = "TP1" ∧
      hitFlagCount (label_one_alert ⟨some "t", some "s", some "BUY",
        some 100, some 90, [110]⟩ (fun _ => true) (some [⟨112, 100⟩])) ≤ 1 := by
  have hstep : label_one_alert ⟨some "t", some "s", some "BUY", some 100,
      some 90, [110]⟩ (fun _ => true) (some [⟨112, 100⟩]) =
      finalize 100 90 [110] (.tpEv 1) 1 := rfl
  have hfin : finalize 100 90 [110] (.tpEv 1) 1 =
      { defaultOut with
          hit_tp1 := true
          first_event := "TP1"
          max_tp_reached := 1
          rr_at_max_tp := 1 } := by
    unfold finalize
    norm_num [setTpFlag, feString, defaultOut, List.getD]
    rfl
  have hlab := hstep.trans hfin
  have h1 : (label_one_alert ⟨some "t", some "s", some "BUY", some 100,
      some 90, [110]⟩ (fun _ => true) (some [⟨112, 100⟩])).hit_tp1 = true := by
    rw [hlab]
  exact ⟨h1, (C10_flag_matches_first_event ⟨some "t", some "s", some "BUY",
      some 100, some 90, [110]⟩ (fun _ => true)
      (some [⟨112, 100⟩])).2.2.1 h1,
    (C10_flag_matches_first_event ⟨some "t", some "s", some "BUY", some 100,
      some 90, [110]⟩ (fun _ => true) (some [⟨112, 100⟩])).1⟩

end AltScanner
